import Mathlib

/-!
Shallow embedding of the remote interactive shell client
(`src/commands/shell.js` of the CLI repository) and verification of the
frozen claims about it.

The embedding models:
* the JSON values carried by inbound frames (`Json`, `JsVal`) together
  with JavaScript property-access semantics (access on `null` or
  `undefined` throws, access on other primitives yields `undefined`);
* the mutable fields of the `ShellClient` object (`ClientState`), plus a
  ghost field `sessionActive` tracking the session state machine of the
  current connection (`AwaitingCreation` = `false`, `Active` = `true`);
* the observable side effects (`Effect`): log lines, terminal writes,
  messages handed to the transport, timers, process exit;
* the event-loop callbacks as a step function `step` over events
  (`Event`): transport open/close, inbound frame, typed line, interrupt,
  heartbeat tick, heartbeat arming, termination signal.
-/

namespace ShellClient

/-- JSON values, as produced by `JSON.parse` on an inbound text frame. -/
inductive Json where
  | null
  | bool (b : Bool)
  | num (n : Int)
  | str (s : String)
  | arr (elems : List Json)
  | obj (fields : List (String × Json))

/-- Result of a JavaScript property access: either `undefined` or a value. -/
inductive JsVal where
  | undefined
  | val (j : Json)

/-- JavaScript property access `j[k]` on a JSON value: objects yield the
field (or `undefined` when absent); every other value yields `undefined`.
(Access on `null` throws in JavaScript: the callers below match on
`Json.null` explicitly before using `getField`.) -/
def getField (j : Json) (k : String) : JsVal :=
  match j with
  | .obj fields =>
    match fields.lookup k with
    | some v => .val v
    | none => .undefined
  | _ => .undefined

/-- Does the JavaScript strict equality `v === s` hold for a string literal `s`? -/
def isStr (v : JsVal) (s : String) : Bool :=
  match v with
  | .val (.str t) => t == s
  | _ => false

/-- Observable side effects of the client: log lines, terminal writes,
messages handed to the transport, timers, process exit. -/
inductive Effect where
  | logInfo (s : String)
  | logSuccess (s : String)
  | logWarn (s : String)
  | logError (s : String)
  | clearLine
  | paint (ls : List String)
  | promptRefresh
  | sendCmd (command : String)
  | sendPing
  | setTimer (ms : Nat)
  | closeWs (code : Nat)
  | exitProc
  deriving DecidableEq

/-- The mutable fields of the `ShellClient` object (constructor, lines 18-30
of `shell.js`), plus a ghost field `sessionActive` for the spec's Session
State Machine and an `alive` flag for `process.exit`. -/
structure ClientState where
  /-- `this.ws !== null && this.ws.readyState === WebSocket.OPEN` -/
  wsReady : Bool
  /-- `this.sessionId` (line 23, assigned from a parsed JSON field) -/
  sessionId : JsVal
  /-- `this.connected` (line 24) -/
  connected : Bool
  /-- whether `this.rl`, the readline interface, exists (line 25) -/
  rl : Bool
  /-- `this.lastScreen` (line 26) -/
  lastScreen : String
  /-- `this.reconnectAttempts` (line 27) -/
  reconnectAttempts : Nat
  /-- `this.shouldReconnect` (line 29) -/
  shouldReconnect : Bool
  /-- ghost: Session State Machine of the current connection (spec section 4.2):
  `false` = `AwaitingCreation`, `true` = `Active`. -/
  sessionActive : Bool
  /-- whether `startHeartbeat`'s `setInterval` has been created (line 309) -/
  heartbeatArmed : Bool
  /-- whether the process is still running (`false` after `process.exit`) -/
  alive : Bool

/-- `this.maxReconnectAttempts = 3` (line 28). -/
def maxReconnectAttempts : Nat := 3

/-- The state of a freshly constructed `ShellClient` (lines 18-30). -/
def initState : ClientState :=
  { wsReady := false, sessionId := .val .null, connected := false, rl := false,
    lastScreen := "", reconnectAttempts := 0, shouldReconnect := true,
    sessionActive := false, heartbeatArmed := false, alive := true }

/-- Result of running a message handler: new state, emitted effects, and
whether a JavaScript error was thrown (to be caught by the `message`
callback's `try`/`catch`). -/
structure HRes where
  state : ClientState
  effects : List Effect
  threw : Bool

/-- JavaScript `s.split(c)` for a single-character separator: splitting
never yields the empty list (`"".split('\n')` is `[""]`). -/
def splitOnChar (c : Char) : List Char → List (List Char)
  | [] => [[]]
  | x :: xs =>
    if x == c then [] :: splitOnChar c xs
    else
      match splitOnChar c xs with
      | [] => [[x]]
      | h :: t => (x :: h) :: t

/-- `screen.split('\n')` (line 181). -/
def splitLines (screen : String) : List String :=
  (splitOnChar '\n' screen.toList).map List.asString

/-- JavaScript `input.trim()` (line 207): strip whitespace from both ends. -/
def trimInput (input : String) : String :=
  (((input.toList.dropWhile Char.isWhitespace).reverse.dropWhile
      Char.isWhitespace).reverse).asString

/-- `lines.slice(-40)` over `screen.split('\n')` (lines 181-182): the
trailing 40 lines of the snapshot. -/
def displayLines (screen : String) : List String :=
  let lines := splitLines screen
  lines.drop (lines.length - 40)

/-- The Screen Renderer core (lines 171-192): compares the incoming
snapshot against `this.lastScreen`; on a difference it clears the prompt
line (when a readline interface exists), paints the trailing 40 lines and
records the snapshot; in both cases it refreshes the prompt. Returns the
new `lastScreen` and the emitted effects. -/
def render (rl : Bool) (lastScreen screen : String) : String × List Effect :=
  if screen == lastScreen then
    (lastScreen, if rl then [.promptRefresh] else [])
  else
    (screen,
      (if rl then [.clearLine] else []) ++
      [.paint (displayLines screen)] ++
      (if rl then [.promptRefresh] else []))

/-- `handleControlMessage` (lines 139-166). Field accesses on `undefined`
or `null` throw, mirroring JavaScript. The branches that start the
terminal also move the ghost session state to `Active`. -/
def handleControlMessage (st : ClientState) (message : Json) : HRes :=
  if isStr (getField message "action") "session_ready" then
    match getField message "data" with
    | .undefined => ⟨st, [], true⟩
    | .val .null => ⟨st, [], true⟩
    | .val d =>
      let st1 := { st with sessionId := getField d "session_id" }
      let status := getField d "status"
      if isStr status "creating" then
        ⟨st1, [.logInfo "Container is being created, please wait..."], false⟩
      else if isStr status "active" then
        ⟨{ st1 with rl := true, sessionActive := true },
         [.logSuccess "Shell session ready!",
          .logInfo "Type commands below. Press Ctrl+D or type \"exit\" to quit."], false⟩
      else ⟨st1, [], false⟩
  else if isStr (getField message "action") "session_active" then
    let effs := [.logSuccess "Container is ready!",
                 .logInfo "Type commands below. Press Ctrl+D or type \"exit\" to quit."]
    if st.rl then ⟨{ st with sessionActive := true }, effs, false⟩
    else ⟨{ st with rl := true, sessionActive := true }, effs, false⟩
  else if isStr (getField message "action") "error" then
    match getField message "data" with
    | .undefined => ⟨st, [], true⟩
    | .val .null => ⟨st, [], true⟩
    | .val _ => ⟨st, [.logError "Server error:"], false⟩
  else ⟨st, [], false⟩

/-- `handleOutputMessage` (lines 168-193). A non-string `screen` value is
never strictly equal to `this.lastScreen` (a string), so the prompt line
is cleared and then `screen.split` throws. -/
def handleOutputMessage (st : ClientState) (message : Json) : HRes :=
  match getField message "data" with
  | .undefined => ⟨st, [], true⟩
  | .val .null => ⟨st, [], true⟩
  | .val d =>
    match getField d "screen" with
    | .val (.str screen) =>
      let r := render st.rl st.lastScreen screen
      ⟨{ st with lastScreen := r.1 }, r.2, false⟩
    | _ => ⟨st, if st.rl then [.clearLine] else [], true⟩

/-- `handleMessage` (lines 120-137): dispatch on the `type` discriminator;
`message.type` on a parsed `null` throws; unknown types are only logged. -/
def handleMessage (st : ClientState) (message : Json) : HRes :=
  match message with
  | .null => ⟨st, [], true⟩
  | _ =>
    if isStr (getField message "type") "control" then handleControlMessage st message
    else if isStr (getField message "type") "output" then handleOutputMessage st message
    else if isStr (getField message "type") "pong" then ⟨st, [], false⟩
    else ⟨st, [.logWarn "Unknown message type:"], false⟩

/-- The `message` callback (lines 63-70): `JSON.parse` failure (`none`) and
any error thrown by `handleMessage` are caught and logged. -/
def onMessage (st : ClientState) (frame : Option Json) : ClientState × List Effect :=
  match frame with
  | none => (st, [.logError "Error parsing message:"])
  | some j =>
    let r := handleMessage st j
    if r.threw then (r.state, r.effects ++ [.logError "Error parsing message:"])
    else (r.state, r.effects)

/-- `sendCommand` (lines 245-260): hands a `Command` message to the
transport when connected and the socket is open, otherwise reports
"Not connected to server". -/
def sendCommandStep (st : ClientState) (command : String) : ClientState × List Effect :=
  if st.connected && st.wsReady then (st, [.sendCmd command])
  else (st, [.logError "Not connected to server"])

/-- `cleanup` (lines 283-305): stop reconnecting, close the readline
interface, close the socket with the normal code, exit the process.
The heartbeat interval is NOT cleared (no handle was ever stored). -/
def cleanup (st : ClientState) : ClientState × List Effect :=
  ({ st with shouldReconnect := false, rl := false, wsReady := false, alive := false },
   [.logInfo "Disconnecting from remote shell...", .closeWs 1000, .exitProc])

/-- `handleReconnect` (lines 262-281): give up (via `cleanup`) once the
attempt counter has reached the maximum, otherwise increment it and wait
`2000 * attempts` milliseconds before re-running `connect`. -/
def handleReconnectStep (st : ClientState) : ClientState × List Effect :=
  if st.reconnectAttempts ≥ maxReconnectAttempts then
    let c := cleanup st
    (c.1, .logError "Max reconnection attempts reached. Exiting." :: c.2)
  else
    let attempts := st.reconnectAttempts + 1
    ({ st with reconnectAttempts := attempts },
     [.logInfo "Reconnecting...", .setTimer (2000 * attempts)])

/-- The `close` callback (lines 72-86): code 1000 is a normal closure;
codes 4001 and 4003 (unauthorized / forbidden) suppress reconnection;
any other code invokes `handleReconnect` when `shouldReconnect` holds. -/
def onClose (st : ClientState) (code : Nat) : ClientState × List Effect :=
  let st1 := { st with connected := false, wsReady := false }
  if code == 1000 then (st1, [.logInfo "Disconnected from remote shell"])
  else
    if st1.shouldReconnect && code != 4001 && code != 4003 then
      let r := handleReconnectStep st1
      (r.1, .logWarn "Disconnected:" :: r.2)
    else (st1, [.logWarn "Disconnected:"])

/-- The events dispatched on the client's single event loop. -/
inductive Event where
  /-- the socket's `open` callback (lines 55-61) -/
  | opened
  /-- the socket's `close` callback with its close code (lines 72-86) -/
  | closed (code : Nat)
  /-- the socket's `message` callback; `none` is an unparsable frame (lines 63-70) -/
  | inbound (frame : Option Json)
  /-- a typed input line (readline `line` callback, lines 206-221) -/
  | line (input : String)
  /-- Ctrl+C (readline `SIGINT` callback, lines 224-230) -/
  | sigint
  /-- one firing of the heartbeat interval (lines 309-313) -/
  | tick
  /-- `startHeartbeat()` creating the interval (line 309, called from `shell`) -/
  | armHeartbeat
  /-- SIGTERM: `client.cleanup()` (lines 365-367) -/
  | sigterm

/-- One event-loop step of the client. Events are only delivered while the
process is alive; inbound frames only while the connection is open; line
and interrupt events only while the readline interface exists. -/
def step (st : ClientState) (e : Event) : ClientState × List Effect :=
  if st.alive then
    match e with
    | .opened =>
      ({ st with connected := true, wsReady := true, reconnectAttempts := 0,
                 sessionActive := false },
       [.logSuccess "Connected to remote container"])
    | .closed code => onClose st code
    | .inbound frame => if st.connected then onMessage st frame else (st, [])
    | .line input =>
      if st.rl then
        let command := trimInput input
        if command == "exit" || command == "quit" then cleanup st
        else if st.connected && st.wsReady then sendCommandStep st command
        else (st, [.logError "Not connected to server"])
      else (st, [])
    | .sigint =>
      if st.rl then
        if st.connected then
          let r := sendCommandStep st "\x03"
          (r.1, r.2 ++ [.promptRefresh])
        else (st, [.promptRefresh])
      else (st, [])
    | .tick =>
      if st.heartbeatArmed && st.connected && st.wsReady then (st, [.sendPing])
      else (st, [])
    | .armHeartbeat => ({ st with heartbeatArmed := true }, [])
    | .sigterm => cleanup st
  else (st, [])

/-- Run a trace of events, returning the final state. -/
def runTrace (st : ClientState) (evs : List Event) : ClientState :=
  evs.foldl (fun s e => (step s e).1) st

/-- All effects emitted while running a trace of events. -/
def traceEffects (st : ClientState) (evs : List Event) : List Effect :=
  match evs with
  | [] => []
  | e :: rest => (step st e).2 ++ traceEffects (step st e).1 rest

/-- Is this effect a `Command` message handed to the transport? -/
def isSendCmd : Effect → Bool
  | .sendCmd _ => true
  | _ => false

/-- Number of `Command` messages among the effects. -/
def cmdCount (effs : List Effect) : Nat := (effs.filter isSendCmd).length

/-- Is this effect a snapshot paint? -/
def isPaint : Effect → Bool
  | .paint _ => true
  | _ => false

/-- Number of snapshot paints among the effects. -/
def paintCount (effs : List Effect) : Nat := (effs.filter isPaint).length

/-- Is this effect a terminal write performed by the renderer
(line clearing or snapshot paint)? -/
def isRenderWrite : Effect → Bool
  | .paint _ => true
  | .clearLine => true
  | _ => false

/-- Number of renderer terminal writes among the effects. -/
def renderWriteCount (effs : List Effect) : Nat := (effs.filter isRenderWrite).length

/-- Does any effect schedule a reconnection timer? -/
def schedulesReconnect (effs : List Effect) : Bool :=
  effs.any fun e => match e with | .setTimer _ => true | _ => false

/-- Does any effect exit the process? -/
def exitsProc (effs : List Effect) : Bool :=
  effs.any fun e => match e with | .exitProc => true | _ => false

/-- Number of `Command` messages handed to the transport, over a trace,
while the Session State Machine of the current connection is still in
`AwaitingCreation` (ghost `sessionActive = false` in the pre-state of the
emitting step). -/
def violationsC1 : ClientState → List Event → Nat
  | _, [] => 0
  | st, e :: rest =>
    (if st.sessionActive then 0 else cmdCount (step st e).2) +
      violationsC1 (step st e).1 rest

/-- Number of `opened` events in a trace (successful Open transitions). -/
def countOpens (evs : List Event) : Nat :=
  (evs.filter fun e => match e with | .opened => true | _ => false).length

/-- JavaScript strings are modelled as lists of characters for the URL
computation. -/
abbrev Str := List Char

/-- Character list of a string literal. -/
abbrev lit (s : String) : Str := s.toList

/-- `s.replace(/^pat/, rep)`: an anchored regex replacement at the start of
the string. -/
def replaceStart (pat rep s : Str) : Str :=
  if pat.isPrefixOf s then rep ++ s.drop pat.length else s

/-- Line 109: `apiUrl.replace(/^http:\/\//, 'ws://').replace(/^https:\/\//, 'wss://')`. -/
def toWsScheme (s : Str) : Str :=
  replaceStart (lit "https://") (lit "wss://")
    (replaceStart (lit "http://") (lit "ws://") s)

/-- Line 112: `wsUrl.replace(/\/api\/v1$/, '')` — remove one trailing
`/api/v1` segment when present. -/
def stripApiSuffix (s : Str) : Str :=
  if (lit "/api/v1").isSuffixOf s then s.take (s.length - 7) else s

/-- `buildWebSocketUrl` (lines 106-118): scheme rewrite, strip a trailing
`/api/v1`, then append the `/api/v1/shell/connect` endpoint with the
`app` and `token` query parameters. -/
def buildWebSocketUrl (serverUrl app tok : Str) : Str :=
  stripApiSuffix (toWsScheme serverUrl) ++
    lit "/api/v1/shell/connect?app=" ++ app ++ lit "&token=" ++ tok

/-- Modelled from the spec: the transport URL form claimed in sections 4.1
and 6, `{scheme}://{host}/{versionless-path}/shell/connect?app=...&token=...`
with any API-version path segment removed; stated for comparison with
`buildWebSocketUrl`. -/
def specTransportUrl (serverUrl app tok : Str) : Str :=
  stripApiSuffix (toWsScheme serverUrl) ++
    lit "/shell/connect?app=" ++ app ++ lit "&token=" ++ tok

/-- Is the field `k` of object `j`, when present, a string? -/
def optStrField (j : Json) (k : String) : Bool :=
  match getField j k with
  | .undefined => true
  | .val (.str _) => true
  | _ => false

/-- Is the field `k` of object `j` present and a string? -/
def strField (j : Json) (k : String) : Bool :=
  match getField j k with
  | .val (.str _) => true
  | _ => false

/-- The wire message schema for server-to-client frames (spec section 6):
`control` frames carry an `action` among `session_ready`, `session_active`,
`error` and a `data` object whose optional `session_id`, `status`,
`message` fields are strings; `output` frames carry a `data` object with a
required string `screen`; `pong` frames stand alone. -/
def isValidMessage (j : Json) : Bool :=
  (isStr (getField j "type") "control" &&
    (isStr (getField j "action") "session_ready" ||
     isStr (getField j "action") "session_active" ||
     isStr (getField j "action") "error") &&
    (match getField j "data" with
     | .val (.obj fields) =>
       optStrField (.obj fields) "session_id" && optStrField (.obj fields) "status" &&
         optStrField (.obj fields) "message"
     | _ => false)) ||
  (isStr (getField j "type") "output" &&
    (match getField j "data" with
     | .val (.obj fields) => strField (.obj fields) "screen"
     | _ => false)) ||
  isStr (getField j "type") "pong"

/-- The trailing `n` elements of a list (the spec's "last 40 lines"). -/
def lastN (n : Nat) (l : List α) : List α :=
  (l.reverse.take n).reverse

/-- The well-formed `{"type":"output","data":{"screen":s}}` frame. -/
def outputFrame (s : String) : Json :=
  .obj [("type", .str "output"), ("data", .obj [("screen", .str s)])]

/-- The `{"type":"control","action":"session_active"}` frame (the spec's
section 8 scenario message). -/
def sessionActiveFrame : Json :=
  .obj [("type", .str "control"), ("action", .str "session_active")]

/-- C3: for every reconnect attempt `n` (1-indexed, `n ≤ 3`) the delay
scheduled before re-running `connect` is `n × 2000` ms and the counter
becomes `n`; once the counter has reached 3, a further failure performs no
reconnection, reports the failure and shuts the client down; and every
successful Open transition resets the counter to zero. -/
theorem reconnect_backoff_policy (st : ClientState) :
    (st.reconnectAttempts < maxReconnectAttempts →
      (handleReconnectStep st).1.reconnectAttempts = st.reconnectAttempts + 1 ∧
      Effect.setTimer (2000 * (st.reconnectAttempts + 1)) ∈ (handleReconnectStep st).2 ∧
      exitsProc (handleReconnectStep st).2 = false ∧
      (handleReconnectStep st).1.alive = st.alive) ∧
    (maxReconnectAttempts ≤ st.reconnectAttempts →
      (handleReconnectStep st).1.alive = false ∧
      exitsProc (handleReconnectStep st).2 = true ∧
      Effect.logError "Max reconnection attempts reached. Exiting."
        ∈ (handleReconnectStep st).2 ∧
      schedulesReconnect (handleReconnectStep st).2 = false) ∧
    (st.alive = true → (step st .opened).1.reconnectAttempts = 0) := by
  refine ⟨fun h => ?_, fun h => ?_, fun h => ?_⟩
  · simp [handleReconnectStep, Nat.not_le.mpr h, exitsProc]
  · simp [handleReconnectStep, h, cleanup, exitsProc, schedulesReconnect]
  · simp [step, h]

/-- Witness for `reconnect_backoff_policy` at a concrete state with two
prior attempts. -/
theorem reconnect_backoff_policy_witness :
    ({ initState with reconnectAttempts := 2 }.reconnectAttempts < maxReconnectAttempts →
      (handleReconnectStep { initState with reconnectAttempts := 2 }).1.reconnectAttempts =
        { initState with reconnectAttempts := 2 }.reconnectAttempts + 1 ∧
      Effect.setTimer (2000 * ({ initState with reconnectAttempts := 2 }.reconnectAttempts + 1))
        ∈ (handleReconnectStep { initState with reconnectAttempts := 2 }).2 ∧
      exitsProc (handleReconnectStep { initState with reconnectAttempts := 2 }).2 = false ∧
      (handleReconnectStep { initState with reconnectAttempts := 2 }).1.alive =
        { initState with reconnectAttempts := 2 }.alive) ∧
    (maxReconnectAttempts ≤ { initState with reconnectAttempts := 2 }.reconnectAttempts →
      (handleReconnectStep { initState with reconnectAttempts := 2 }).1.alive = false ∧
      exitsProc (handleReconnectStep { initState with reconnectAttempts := 2 }).2 = true ∧
      Effect.logError "Max reconnection attempts reached. Exiting."
        ∈ (handleReconnectStep { initState with reconnectAttempts := 2 }).2 ∧
      schedulesReconnect (handleReconnectStep { initState with reconnectAttempts := 2 }).2 = false) ∧
    ({ initState with reconnectAttempts := 2 }.alive = true →
      (step { initState with reconnectAttempts := 2 } .opened).1.reconnectAttempts = 0) :=
  reconnect_backoff_policy { initState with reconnectAttempts := 2 }

/-- C7: closures with code 1000 (normal), 4001 (unauthorized) or 4003
(forbidden) never invoke the reconnection policy, for every value of the
attempt counter; any other close code, while `shouldReconnect` holds,
does invoke it (either scheduling a backoff timer or, once the budget is
exhausted, shutting down). -/
theorem close_code_reconnect_policy (st : ClientState) (code : Nat) :
    (schedulesReconnect (onClose st 1000).2 = false ∧
      exitsProc (onClose st 1000).2 = false ∧
      (onClose st 1000).1.reconnectAttempts = st.reconnectAttempts) ∧
    (schedulesReconnect (onClose st 4001).2 = false ∧
      exitsProc (onClose st 4001).2 = false ∧
      (onClose st 4001).1.reconnectAttempts = st.reconnectAttempts) ∧
    (schedulesReconnect (onClose st 4003).2 = false ∧
      exitsProc (onClose st 4003).2 = false ∧
      (onClose st 4003).1.reconnectAttempts = st.reconnectAttempts) ∧
    (st.shouldReconnect = true → code ≠ 1000 → code ≠ 4001 → code ≠ 4003 →
      schedulesReconnect (onClose st code).2 = true ∨
        exitsProc (onClose st code).2 = true) := by
  refine ⟨?_, ?_, ?_, fun hs h1 h2 h3 => ?_⟩
  · simp [onClose, schedulesReconnect, exitsProc]
  · by_cases hr : st.shouldReconnect <;>
      simp [onClose, hr, schedulesReconnect, exitsProc]
  · by_cases hr : st.shouldReconnect <;>
      simp [onClose, hr, schedulesReconnect, exitsProc]
  · by_cases hmax : st.reconnectAttempts ≥ maxReconnectAttempts
    · right
      simp [onClose, h1, h2, h3, hs, handleReconnectStep, hmax, cleanup, exitsProc]
    · left
      simp [onClose, h1, h2, h3, hs, handleReconnectStep, hmax, schedulesReconnect]

theorem paintCount_append (a b : List Effect) :
    paintCount (a ++ b) = paintCount a + paintCount b := by
  simp [paintCount, List.filter_append]

theorem renderWriteCount_append (a b : List Effect) :
    renderWriteCount (a ++ b) = renderWriteCount a + renderWriteCount b := by
  simp [renderWriteCount, List.filter_append]

theorem cmdCount_append (a b : List Effect) :
    cmdCount (a ++ b) = cmdCount a + cmdCount b := by
  simp [cmdCount, List.filter_append]

/-- The renderer's `slice(-40)` equals the spec's "trailing 40 lines". -/
theorem displayLines_eq_lastN (s : String) :
    displayLines s = lastN 40 (splitLines s) := by
  have h := List.rtake_eq_reverse_take_reverse (l := splitLines s) (n := 40)
  simpa [List.rtake, displayLines, lastN] using h

/-- With at most 40 lines, `slice(-40)` keeps the whole snapshot. -/
theorem displayLines_all (s : String) (h : (splitLines s).length ≤ 40) :
    displayLines s = splitLines s := by
  simp [displayLines, Nat.sub_eq_zero_of_le h]

/-- Rendering a snapshot equal to the last rendered one is a no-op up to a
prompt refresh. -/
theorem render_self (rl : Bool) (s : String) :
    render rl s s = (s, if rl then [Effect.promptRefresh] else []) := by
  simp [render]

theorem renderWriteCount_render_self (rl : Bool) (s : String) :
    renderWriteCount (render rl s s).2 = 0 := by
  cases rl <;> simp [render_self, renderWriteCount, isRenderWrite]

theorem render_ne (rl : Bool) (last s : String) (h : s ≠ last) :
    paintCount (render rl last s).2 = 1 ∧ (render rl last s).1 = s := by
  cases rl <;> simp [render, h, paintCount, isPaint]

theorem handleMessage_output (st : ClientState) (x : String) :
    handleMessage st (outputFrame x) =
      ⟨{ st with lastScreen := (render st.rl st.lastScreen x).1 },
       (render st.rl st.lastScreen x).2, false⟩ := rfl

/-- Processing a well-formed `output` frame while connected runs the
renderer and stores its resulting `lastScreen`. -/
theorem step_output (st : ClientState) (x : String)
    (ha : st.alive = true) (hc : st.connected = true) :
    step st (.inbound (some (outputFrame x))) =
      ({ st with lastScreen := (render st.rl st.lastScreen x).1 },
       (render st.rl st.lastScreen x).2) := by
  simp [step, ha, hc, onMessage, handleMessage_output]

/-- A run of `output` frames whose snapshot equals the current
`lastScreen` performs no renderer terminal write at all. -/
theorem run_output_noop (n : Nat) (st : ClientState) (x : String)
    (ha : st.alive = true) (hc : st.connected = true) (hx : st.lastScreen = x) :
    paintCount (traceEffects st (List.replicate n (.inbound (some (outputFrame x))))) = 0 ∧
    renderWriteCount (traceEffects st (List.replicate n (.inbound (some (outputFrame x))))) = 0 := by
  induction n generalizing st with
  | zero => simp [traceEffects, paintCount, renderWriteCount]
  | succ k ih =>
    rw [List.replicate_succ]
    have hstep := step_output st x ha hc
    have hrender : render st.rl st.lastScreen x = (x, if st.rl then [Effect.promptRefresh] else []) := by
      rw [hx]; exact render_self st.rl x
    have hstate : (step st (.inbound (some (outputFrame x)))).1 = { st with lastScreen := x } := by
      rw [hstep, hrender]
    have hehs : renderWriteCount (step st (.inbound (some (outputFrame x)))).2 = 0 ∧
        paintCount (step st (.inbound (some (outputFrame x)))).2 = 0 := by
      rw [hstep, hrender]
      cases h : st.rl <;> simp [renderWriteCount, paintCount, isRenderWrite, isPaint]
    have hrec := ih { st with lastScreen := x } ha hc rfl
    show paintCount ((step st _).2 ++ traceEffects (step st _).1 _) = 0 ∧
      renderWriteCount ((step st _).2 ++ traceEffects (step st _).1 _) = 0
    rw [paintCount_append, renderWriteCount_append, hstate]
    omega

/-- C5: over a run of `n + 1` consecutive `output` frames carrying the
same snapshot `x`, the renderer paints exactly once when `x` differs from
the last rendered snapshot (on the first frame) and zero times when it
does not; the repetitions perform no terminal write; and processing a
snapshot equal to the last rendered one is a state-preserving no-op. -/
theorem output_rendering_idempotent (st : ClientState) (x : String) (n : Nat)
    (ha : st.alive = true) (hc : st.connected = true) :
    paintCount (traceEffects st (List.replicate (n + 1) (.inbound (some (outputFrame x))))) =
      (if x = st.lastScreen then 0 else 1) ∧
    renderWriteCount
      (traceEffects (step st (.inbound (some (outputFrame x)))).1
        (List.replicate n (.inbound (some (outputFrame x))))) = 0 ∧
    (x = st.lastScreen →
      (step st (.inbound (some (outputFrame x)))).1 = st ∧
      renderWriteCount (step st (.inbound (some (outputFrame x)))).2 = 0) := by
  have hstep := step_output st x ha hc
  have hstate : (step st (.inbound (some (outputFrame x)))).1 = { st with lastScreen := x } := by
    rw [hstep]
    by_cases hx : x = st.lastScreen
    · rw [hx, render_self]
    · rw [(render_ne st.rl st.lastScreen x hx).2]
  have hrest := run_output_noop n { st with lastScreen := x } x ha hc rfl
  refine ⟨?_, ?_, fun hx => ?_⟩
  · rw [List.replicate_succ]
    show paintCount ((step st _).2 ++ traceEffects (step st _).1 _) = _
    rw [paintCount_append, hstate]
    by_cases hx : x = st.lastScreen
    · have h0 : paintCount (step st (.inbound (some (outputFrame x)))).2 = 0 := by
        rw [hstep, hx, render_self]
        cases st.rl <;> simp [paintCount, isPaint]
      rw [h0, hrest.1, if_pos hx]
    · have h1 : paintCount (step st (.inbound (some (outputFrame x)))).2 = 1 := by
        rw [hstep]
        exact (render_ne st.rl st.lastScreen x hx).1
      rw [h1, hrest.1, if_neg hx]
  · rw [hstate]; exact hrest.2
  · constructor
    · rw [hstate, hx]
    · rw [hstep, hx, render_self]
      cases st.rl <;> simp [renderWriteCount, isRenderWrite]

/-- Witness for `output_rendering_idempotent`: three identical snapshots
`"hi"` arriving on a fresh open connection paint once. -/
theorem output_rendering_idempotent_witness :
    (step initState .opened).1.alive = true ∧
    (step initState .opened).1.connected = true ∧
    paintCount (traceEffects (step initState .opened).1
      (List.replicate (2 + 1) (.inbound (some (outputFrame "hi"))))) =
      (if "hi" = (step initState .opened).1.lastScreen then 0 else 1) := by
  refine ⟨by decide, by decide, ?_⟩
  exact (output_rendering_idempotent (step initState .opened).1 "hi" 2
    (by decide) (by decide)).1

/-- C6: every snapshot paint performed by the renderer writes exactly the
trailing 40 lines of the snapshot, and all of its lines when it has 40 or
fewer. -/
theorem render_paints_last_forty (rl : Bool) (last s : String) (ls : List String)
    (h : Effect.paint ls ∈ (render rl last s).2) :
    ls = lastN 40 (splitLines s) ∧
    ((splitLines s).length ≤ 40 → ls = splitLines s) := by
  by_cases he : s = last
  · rw [he, render_self] at h
    cases rl <;> simp at h
  · have hls : ls = displayLines s := by
      simp only [render, beq_iff_eq, he, if_false] at h
      cases rl <;> simp at h <;> exact h
    refine ⟨?_, fun hlen => ?_⟩
    · rw [hls, displayLines_eq_lastN]
    · rw [hls, displayLines_all s hlen]

/-- Witness for `render_paints_last_forty` on a two-line snapshot. -/
theorem render_paints_last_forty_witness :
    Effect.paint ["a", "b"] ∈ (render false "" "a\nb").2 ∧
    ["a", "b"] = lastN 40 (splitLines "a\nb") := by
  refine ⟨by decide, ?_⟩
  exact (render_paints_last_forty false "" "a\nb" ["a", "b"] (by decide)).1

theorem isPrefixOf_append_self (p x : Str) : p.isPrefixOf (p ++ x) = true := by
  induction p with
  | nil => simp
  | cons c cs ih => simp [List.isPrefixOf, ih]

theorem isPrefixOf_append_of_le (p x y : Str) (h : p.length ≤ x.length) :
    p.isPrefixOf (x ++ y) = p.isPrefixOf x := by
  induction p generalizing x with
  | nil => simp
  | cons c cs ih =>
    cases x with
    | nil => simp at h
    | cons b bs =>
      simp only [List.cons_append, List.isPrefixOf, List.append_eq]
      rw [ih bs (by simpa using h)]

theorem isSuffixOf_append_self (s x : Str) : s.isSuffixOf (x ++ s) = true := by
  simp [List.isSuffixOf, List.reverse_append, isPrefixOf_append_self]

theorem isSuffixOf_append_of_le (p x y : Str) (h : p.length ≤ y.length) :
    p.isSuffixOf (x ++ y) = p.isSuffixOf y := by
  simp only [List.isSuffixOf, List.reverse_append]
  exact isPrefixOf_append_of_le p.reverse y.reverse x.reverse (by simpa using h)

theorem stripApiSuffix_append (x : Str) :
    stripApiSuffix (x ++ lit "/api/v1") = x := by
  unfold stripApiSuffix
  rw [isSuffixOf_append_self]
  simp only [if_true]
  have hlen : (x ++ lit "/api/v1").length - 7 = x.length := by
    simp [lit]
  rw [hlen, List.take_left]

theorem stripApiSuffix_of_no_suffix (x : Str)
    (h : (lit "/api/v1").isSuffixOf x = false) : stripApiSuffix x = x := by
  unfold stripApiSuffix
  rw [h]
  simp

theorem toWsScheme_http (r : Str) :
    toWsScheme (lit "http://" ++ r) = lit "ws://" ++ r := by
  unfold toWsScheme replaceStart
  rw [isPrefixOf_append_self]
  simp only [if_true]
  rw [List.drop_left]
  have hnp : (lit "https://").isPrefixOf (lit "ws://" ++ r) = false := rfl
  rw [hnp]
  simp

theorem toWsScheme_https (r : Str) :
    toWsScheme (lit "https://" ++ r) = lit "wss://" ++ r := by
  unfold toWsScheme replaceStart
  have hnp : (lit "http://").isPrefixOf (lit "https://" ++ r) = false := rfl
  rw [hnp]
  simp only [Bool.false_eq_true, if_false]
  rw [isPrefixOf_append_self]
  simp only [if_true]
  rw [List.drop_left]

/-- C2 counterexample: for the control-plane base URL
`https://api.example.com/api/v1` the transport URL built by
`buildWebSocketUrl` is NOT of the claimed versionless form
`{scheme}://{host}/{versionless-path}/shell/connect?...` — it differs from
the spec's form and still contains the API-version path segment
`/api/v1` (re-inserted before `/shell/connect`). -/
theorem websocket_url_not_versionless :
    buildWebSocketUrl (lit "https://api.example.com/api/v1") (lit "A") (lit "T") ≠
      specTransportUrl (lit "https://api.example.com/api/v1") (lit "A") (lit "T") ∧
    lit "/api/v1/" <:+: buildWebSocketUrl (lit "https://api.example.com/api/v1")
      (lit "A") (lit "T") := by
  constructor
  · decide
  · decide

/-- C2 amended: for a control-plane base URL with an `http(s)` scheme, the
transport URL is the scheme-rewritten base with any single trailing
`/api/v1` removed, followed by `/api/v1/shell/connect?app={app}&token={token}`;
the API-version segment is normalized to exactly one occurrence before
`/shell/connect` (bases with and without the trailing segment give the
same URL) rather than removed. -/
theorem websocket_url_normalized (r a t : Str) (h7 : 7 ≤ r.length)
    (hs : (lit "/api/v1").isSuffixOf r = false) :
    buildWebSocketUrl (lit "http://" ++ (r ++ lit "/api/v1")) a t =
      buildWebSocketUrl (lit "http://" ++ r) a t ∧
    buildWebSocketUrl (lit "http://" ++ r) a t =
      lit "ws://" ++ r ++ lit "/api/v1/shell/connect?app=" ++ a ++ lit "&token=" ++ t ∧
    buildWebSocketUrl (lit "https://" ++ (r ++ lit "/api/v1")) a t =
      buildWebSocketUrl (lit "https://" ++ r) a t ∧
    buildWebSocketUrl (lit "https://" ++ r) a t =
      lit "wss://" ++ r ++ lit "/api/v1/shell/connect?app=" ++ a ++ lit "&token=" ++ t := by
  have hws : (lit "/api/v1").isSuffixOf (lit "ws://" ++ r) = false := by
    rw [isSuffixOf_append_of_le _ _ _ (by simpa [lit] using h7)]
    exact hs
  have hwss : (lit "/api/v1").isSuffixOf (lit "wss://" ++ r) = false := by
    rw [isSuffixOf_append_of_le _ _ _ (by simpa [lit] using h7)]
    exact hs
  have hstrip1 : stripApiSuffix (lit "ws://" ++ (r ++ lit "/api/v1")) = lit "ws://" ++ r := by
    rw [← List.append_assoc]
    exact stripApiSuffix_append _
  have hstrip2 : stripApiSuffix (lit "wss://" ++ (r ++ lit "/api/v1")) = lit "wss://" ++ r := by
    rw [← List.append_assoc]
    exact stripApiSuffix_append _
  refine ⟨?_, ?_, ?_, ?_⟩
  · unfold buildWebSocketUrl
    rw [toWsScheme_http, toWsScheme_http, hstrip1, stripApiSuffix_of_no_suffix _ hws]
  · unfold buildWebSocketUrl
    rw [toWsScheme_http, stripApiSuffix_of_no_suffix _ hws]
  · unfold buildWebSocketUrl
    rw [toWsScheme_https, toWsScheme_https, hstrip2, stripApiSuffix_of_no_suffix _ hwss]
  · unfold buildWebSocketUrl
    rw [toWsScheme_https, stripApiSuffix_of_no_suffix _ hwss]

/-- Witness for `websocket_url_normalized` at the host `api.example.com`. -/
theorem websocket_url_normalized_witness :
    buildWebSocketUrl (lit "http://" ++ (lit "api.example.com" ++ lit "/api/v1"))
        (lit "A") (lit "T") =
      buildWebSocketUrl (lit "http://" ++ lit "api.example.com") (lit "A") (lit "T") ∧
    buildWebSocketUrl (lit "http://" ++ lit "api.example.com") (lit "A") (lit "T") =
      lit "ws://" ++ lit "api.example.com" ++ lit "/api/v1/shell/connect?app=" ++
        lit "A" ++ lit "&token=" ++ lit "T" := by
  have h := websocket_url_normalized (lit "api.example.com") (lit "A") (lit "T")
    (by decide) (by decide)
  exact ⟨h.1, h.2.1⟩

/-- Effects a message handler may emit: log lines and renderer terminal
writes only — never transport sends, timers, socket closes or exits. -/
def rendererOrLog : Effect → Bool
  | .logInfo _ => true
  | .logSuccess _ => true
  | .logWarn _ => true
  | .logError _ => true
  | .clearLine => true
  | .paint _ => true
  | .promptRefresh => true
  | _ => false

theorem cmdCount_eq_zero_of_benign (effs : List Effect)
    (h : effs.all rendererOrLog = true) : cmdCount effs = 0 := by
  induction effs with
  | nil => rfl
  | cons e rest ih =>
    simp only [List.all_cons, Bool.and_eq_true] at h
    have he : isSendCmd e = false := by
      cases e <;> simp_all [rendererOrLog, isSendCmd]
    simpa [cmdCount, List.filter_cons, he] using ih h.2

theorem render_all_benign (rl : Bool) (last s : String) :
    (render rl last s).2.all rendererOrLog = true := by
  unfold render
  split <;> cases rl <;> simp [rendererOrLog]

theorem handleControlMessage_all_benign (st : ClientState) (j : Json) :
    (handleControlMessage st j).effects.all rendererOrLog = true := by
  unfold handleControlMessage
  split
  · split
    · simp
    · simp
    · dsimp only
      split
      · simp [rendererOrLog]
      · split <;> simp [rendererOrLog]
  · split
    · split <;> simp [rendererOrLog]
    · split
      · split <;> simp [rendererOrLog]
      · simp

theorem handleOutputMessage_all_benign (st : ClientState) (j : Json) :
    (handleOutputMessage st j).effects.all rendererOrLog = true := by
  unfold handleOutputMessage
  split
  · simp
  · simp
  · split
    · exact render_all_benign _ _ _
    · split <;> simp [rendererOrLog]

theorem handleMessage_all_benign (st : ClientState) (j : Json) :
    (handleMessage st j).effects.all rendererOrLog = true := by
  unfold handleMessage
  split
  · simp
  all_goals
    split
    · exact handleControlMessage_all_benign st _
    · split
      · exact handleOutputMessage_all_benign st _
      · split <;> simp [rendererOrLog]

/-- A message handler either leaves the readline flag and the ghost session
state untouched, or sets the session Active (the only branches that create
the terminal also mark the session Active). -/
theorem handleControlMessage_state (st : ClientState) (j : Json) :
    ((handleControlMessage st j).state.rl = st.rl ∧
      (handleControlMessage st j).state.sessionActive = st.sessionActive) ∨
    ((handleControlMessage st j).state.rl = true ∧
      (handleControlMessage st j).state.sessionActive = true) := by
  unfold handleControlMessage
  split
  · split
    · left; simp
    · left; simp
    · dsimp only
      split
      · left; simp
      · split
        · right; simp
        · left; simp
  · split
    · split
      · right; simp_all
      · right; simp
    · split
      · split
        · left; simp
        · left; simp
        · left; simp
      · left; simp

theorem handleOutputMessage_state (st : ClientState) (j : Json) :
    (handleOutputMessage st j).state.rl = st.rl ∧
    (handleOutputMessage st j).state.sessionActive = st.sessionActive := by
  unfold handleOutputMessage
  split
  · simp
  · simp
  · split <;> simp

theorem handleMessage_state (st : ClientState) (j : Json) :
    ((handleMessage st j).state.rl = st.rl ∧
      (handleMessage st j).state.sessionActive = st.sessionActive) ∨
    ((handleMessage st j).state.rl = true ∧
      (handleMessage st j).state.sessionActive = true) := by
  unfold handleMessage
  split
  · left; simp
  all_goals
    split
    · exact handleControlMessage_state st _
    · split
      · left; exact handleOutputMessage_state st _
      · split <;> (left; simp)

/-- A message handler either does not throw, or it has not changed the
state: every throw happens before any assignment. -/
theorem handleControlMessage_threw (st : ClientState) (j : Json) :
    (handleControlMessage st j).threw = false ∨
    (handleControlMessage st j).state = st := by
  unfold handleControlMessage
  split
  · split
    · right; rfl
    · right; rfl
    · dsimp only
      split
      · left; rfl
      · split
        · left; rfl
        · left; rfl
  · split
    · split
      · left; rfl
      · left; rfl
    · split
      · split
        · right; rfl
        · right; rfl
        · left; rfl
      · left; rfl

theorem handleOutputMessage_threw (st : ClientState) (j : Json) :
    (handleOutputMessage st j).threw = false ∨
    (handleOutputMessage st j).state = st := by
  unfold handleOutputMessage
  split
  · right; rfl
  · right; rfl
  · split
    · left; rfl
    · right; rfl

theorem handleMessage_threw (st : ClientState) (j : Json) :
    (handleMessage st j).threw = false ∨
    (handleMessage st j).state = st := by
  unfold handleMessage
  split
  · right; rfl
  all_goals
    split
    · exact handleControlMessage_threw st _
    · split
      · exact handleOutputMessage_threw st _
      · split
        · left; rfl
        · left; rfl

theorem onClose_inv (st : ClientState) (code : Nat)
    (h : st.rl = true → st.sessionActive = true) :
    ((onClose st code).1.rl = true → (onClose st code).1.sessionActive = true) ∧
    cmdCount (onClose st code).2 = 0 := by
  unfold onClose handleReconnectStep cleanup
  dsimp only
  split
  · exact ⟨h, rfl⟩
  · split
    · split
      · constructor
        · simp
        · rfl
      · exact ⟨h, rfl⟩
    · exact ⟨h, rfl⟩

theorem onMessage_inv (st : ClientState) (frame : Option Json)
    (h : st.rl = true → st.sessionActive = true) :
    ((onMessage st frame).1.rl = true → (onMessage st frame).1.sessionActive = true) ∧
    cmdCount (onMessage st frame).2 = 0 := by
  cases frame with
  | none => exact ⟨h, rfl⟩
  | some j =>
    have hcmd : cmdCount (handleMessage st j).effects = 0 :=
      cmdCount_eq_zero_of_benign _ (handleMessage_all_benign st j)
    have hinv : (handleMessage st j).state.rl = true →
        (handleMessage st j).state.sessionActive = true := by
      rcases handleMessage_state st j with ⟨h1, h2⟩ | ⟨h1, h2⟩
      · rw [h1, h2]; exact h
      · rw [h2]; intro; rfl
    unfold onMessage
    dsimp only
    split
    · exact ⟨hinv, by rw [cmdCount_append, hcmd]; rfl⟩
    · exact ⟨hinv, hcmd⟩

/-- Every step other than an Open transition preserves the invariant
"readline interface ⇒ session Active", and hands no `Command` to the
transport from a state whose session is still `AwaitingCreation`. -/
theorem step_inv (st : ClientState) (e : Event) (he : e ≠ Event.opened)
    (h : st.rl = true → st.sessionActive = true) :
    ((step st e).1.rl = true → (step st e).1.sessionActive = true) ∧
    (st.sessionActive = false → cmdCount (step st e).2 = 0) := by
  by_cases ha : st.alive = true
  case neg =>
    have ha' : st.alive = false := by simpa using ha
    simp only [step, ha', Bool.false_eq_true, if_false]
    exact ⟨h, fun _ => rfl⟩
  case pos =>
    cases e with
    | opened => exact absurd rfl he
    | closed code =>
      simp only [step, ha, if_true]
      have hc := onClose_inv st code h
      exact ⟨hc.1, fun _ => hc.2⟩
    | inbound frame =>
      simp only [step, ha, if_true]
      split
      · have hm := onMessage_inv st frame h
        exact ⟨hm.1, fun _ => hm.2⟩
      · exact ⟨h, fun _ => rfl⟩
    | line input =>
      simp only [step, ha, if_true]
      by_cases hrl : st.rl = true
      · rw [if_pos hrl]
        refine ⟨?_, fun hsa => absurd (h hrl) (by simp [hsa])⟩
        dsimp only
        split
        · simp [cleanup]
        · split
          · unfold sendCommandStep
            split
            · exact h
            · exact h
          · exact h
      · have hrl' : st.rl = false := by simpa using hrl
        rw [if_neg (by simp [hrl'])]
        exact ⟨h, fun _ => rfl⟩
    | sigint =>
      simp only [step, ha, if_true]
      by_cases hrl : st.rl = true
      · rw [if_pos hrl]
        refine ⟨?_, fun hsa => absurd (h hrl) (by simp [hsa])⟩
        split
        · dsimp only
          unfold sendCommandStep
          split
          · exact h
          · exact h
        · exact h
      · have hrl' : st.rl = false := by simpa using hrl
        rw [if_neg (by simp [hrl'])]
        exact ⟨h, fun _ => rfl⟩
    | tick =>
      simp only [step, ha, if_true]
      split
      · exact ⟨h, fun _ => rfl⟩
      · exact ⟨h, fun _ => rfl⟩
    | armHeartbeat =>
      simp only [step, ha, if_true]
      exact ⟨h, fun _ => rfl⟩
    | sigterm =>
      simp only [step, ha, if_true]
      refine ⟨?_, fun _ => rfl⟩
      simp [cleanup]

/-- Before the first Open transition (no connection, no readline
interface), every step other than an Open transition keeps the client
disconnected and terminal-less and hands no `Command` to the transport. -/
theorem step_pre_open (st : ClientState) (e : Event) (he : e ≠ Event.opened)
    (hc : st.connected = false) (hr : st.rl = false) :
    (step st e).1.connected = false ∧ (step st e).1.rl = false ∧
    cmdCount (step st e).2 = 0 := by
  by_cases ha : st.alive = true
  case neg =>
    have ha' : st.alive = false := by simpa using ha
    simp only [step, ha', Bool.false_eq_true, if_false]
    exact ⟨hc, hr, rfl⟩
  case pos =>
    cases e with
    | opened => exact absurd rfl he
    | closed code =>
      simp only [step, ha, if_true]
      unfold onClose handleReconnectStep cleanup
      dsimp only
      split
      · exact ⟨rfl, hr, rfl⟩
      · split
        · split
          · exact ⟨rfl, rfl, rfl⟩
          · exact ⟨rfl, hr, rfl⟩
        · exact ⟨rfl, hr, rfl⟩
    | inbound frame =>
      simp only [step, ha, if_true]
      rw [if_neg (by simp [hc])]
      exact ⟨hc, hr, rfl⟩
    | line input =>
      simp only [step, ha, if_true]
      rw [if_neg (by simp [hr])]
      exact ⟨hc, hr, rfl⟩
    | sigint =>
      simp only [step, ha, if_true]
      rw [if_neg (by simp [hr])]
      exact ⟨hc, hr, rfl⟩
    | tick =>
      simp only [step, ha, if_true]
      split
      · exact ⟨hc, hr, rfl⟩
      · exact ⟨hc, hr, rfl⟩
    | armHeartbeat =>
      simp only [step, ha, if_true]
      exact ⟨hc, hr, rfl⟩
    | sigterm =>
      simp only [step, ha, if_true]
      exact ⟨hc, rfl, rfl⟩

theorem countOpens_cons_opened (rest : List Event) :
    countOpens (Event.opened :: rest) = countOpens rest + 1 := by
  simp [countOpens]

theorem countOpens_cons_other (e : Event) (rest : List Event)
    (he : e ≠ Event.opened) :
    countOpens (e :: rest) = countOpens rest := by
  cases e <;> simp_all [countOpens]

/-- After an Open transition, as long as no further Open transition
occurs, no `Command` is handed to the transport while the session of the
current connection is `AwaitingCreation`. -/
theorem post_open_run (evs : List Event) (st : ClientState)
    (hno : countOpens evs = 0) (h : st.rl = true → st.sessionActive = true) :
    violationsC1 st evs = 0 := by
  induction evs generalizing st with
  | nil => rfl
  | cons e rest ih =>
    have he : e ≠ Event.opened := by
      intro heq
      rw [heq, countOpens_cons_opened] at hno
      omega
    have hstep := step_inv st e he h
    have hcontrib : (if st.sessionActive then 0 else cmdCount (step st e).2) = 0 := by
      by_cases hsa : st.sessionActive = true
      · simp [hsa]
      · have hsa' : st.sessionActive = false := by simpa using hsa
        simp [hsa', hstep.2 hsa']
    have hrest : countOpens rest = 0 := by
      rwa [countOpens_cons_other e rest he] at hno
    show (if st.sessionActive then 0 else cmdCount (step st e).2) +
      violationsC1 (step st e).1 rest = 0
    rw [hcontrib, ih (step st e).1 hrest hstep.1]

theorem pre_open_run (evs : List Event) (st : ClientState)
    (hopens : countOpens evs ≤ 1) (hc : st.connected = false)
    (hr : st.rl = false) : violationsC1 st evs = 0 := by
  induction evs generalizing st with
  | nil => rfl
  | cons e rest ih =>
    by_cases he : e = Event.opened
    · subst he
      have hrest : countOpens rest = 0 := by
        rw [countOpens_cons_opened] at hopens
        omega
      have hcontrib : cmdCount (step st Event.opened).2 = 0 := by
        unfold step
        split <;> rfl
      have hinv : (step st Event.opened).1.rl = true →
          (step st Event.opened).1.sessionActive = true := by
        unfold step
        split
        · dsimp only
          rw [hr]
          simp
        · rw [hr]; simp
      show (if st.sessionActive then 0 else cmdCount (step st Event.opened).2) +
        violationsC1 (step st Event.opened).1 rest = 0
      rw [post_open_run rest _ hrest hinv]
      by_cases hsa : st.sessionActive = true <;> simp [hsa, hcontrib]
    · have hstep := step_pre_open st e he hc hr
      have hrest : countOpens rest ≤ 1 := by
        rwa [countOpens_cons_other e rest he] at hopens
      show (if st.sessionActive then 0 else cmdCount (step st e).2) +
        violationsC1 (step st e).1 rest = 0
      rw [ih (step st e).1 hrest hstep.1 hstep.2.1]
      by_cases hsa : st.sessionActive = true <;> simp [hsa, hstep.2.2]

/-- C1 amended: on a run of the shell client with at most one Open
transition (i.e. no reconnection), no `Command` message — from a typed
line or a translated interrupt — is ever handed to the transport while
the Session State Machine of the current connection is in
`AwaitingCreation`. After a reconnection this fails (see the
counterexample): the readline interface survives the reconnect while the
new connection's session is again `AwaitingCreation`. -/
theorem no_command_before_active_single_connection (evs : List Event)
    (h : countOpens evs ≤ 1) : violationsC1 initState evs = 0 :=
  pre_open_run evs initState h rfl rfl

/-- Witness for `no_command_before_active_single_connection`: a full
session — connect, session active, a typed command, normal close. -/
theorem no_command_before_active_single_connection_witness :
    countOpens [Event.opened, Event.inbound (some sessionActiveFrame),
      Event.line "ls", Event.closed 1000] ≤ 1 ∧
    violationsC1 initState [Event.opened, Event.inbound (some sessionActiveFrame),
      Event.line "ls", Event.closed 1000] = 0 :=
  ⟨by decide,
   no_command_before_active_single_connection
     [Event.opened, Event.inbound (some sessionActiveFrame),
      Event.line "ls", Event.closed 1000] (by decide)⟩

/-- C1 counterexample: connect, session becomes active, the connection
drops abnormally (code 1006, reconnect scheduled), the reconnect opens a
fresh connection whose session is back in `AwaitingCreation` — and the
typed line `ls` is handed to the transport as a `Command` anyway, because
the readline interface persists across reconnection. One violation of the
claimed invariant occurs on this run. -/
theorem command_sent_while_awaiting_after_reconnect :
    (runTrace initState [Event.opened, Event.inbound (some sessionActiveFrame),
      Event.closed 1006, Event.opened]).sessionActive = false ∧
    (step (runTrace initState [Event.opened, Event.inbound (some sessionActiveFrame),
      Event.closed 1006, Event.opened]) (Event.line "ls")).2 = [Effect.sendCmd "ls"] ∧
    violationsC1 initState [Event.opened, Event.inbound (some sessionActiveFrame),
      Event.closed 1006, Event.opened, Event.line "ls"] = 1 := by
  refine ⟨by decide, by decide, by decide⟩

/-- C4 counterexample: connect, arm the heartbeat, session active, then a
server-initiated normal closure (code 1000). The process stays alive (no
cleanup runs on a normal closure) and the heartbeat interval is still
armed: the `setInterval` handle was never stored, so nothing ever cancels
it, refuting "no Ping timer remains scheduled" after Closed. -/
theorem heartbeat_timer_survives_close :
    (runTrace initState [Event.opened, Event.armHeartbeat,
      Event.inbound (some sessionActiveFrame), Event.closed 1000]).heartbeatArmed = true ∧
    (runTrace initState [Event.opened, Event.armHeartbeat,
      Event.inbound (some sessionActiveFrame), Event.closed 1000]).connected = false ∧
    (runTrace initState [Event.opened, Event.armHeartbeat,
      Event.inbound (some sessionActiveFrame), Event.closed 1000]).alive = true := by
  refine ⟨by decide, by decide, by decide⟩

/-- C4 amended: the heartbeat interval is never cancelled — it remains
armed after a terminal closure — but its callback is gated: while the
connection is not open, a tick sends no `Ping` (and does nothing at all);
on the cleanup path the process exits, after which no event (tick
included) has any effect. -/
theorem heartbeat_gated_not_cancelled (st : ClientState) :
    (st.connected = false → (step st .tick).2 = []) ∧
    (st.wsReady = false → (step st .tick).2 = []) ∧
    (step st .sigterm).1.alive = false ∧
    (∀ e, st.alive = false → step st e = (st, [])) := by
  refine ⟨fun hc => ?_, fun hw => ?_, ?_, fun e hd => ?_⟩
  · by_cases ha : st.alive = true
    · simp [step, ha, hc]
    · have ha' : st.alive = false := by simpa using ha
      simp [step, ha']
  · by_cases ha : st.alive = true
    · simp [step, ha, hw]
    · have ha' : st.alive = false := by simpa using ha
      simp [step, ha']
  · by_cases ha : st.alive = true
    · simp [step, ha, cleanup]
    · have ha' : st.alive = false := by simpa using ha
      simp [step, ha']
  · simp [step, hd]

/-- Witness for `heartbeat_gated_not_cancelled` at concrete states. -/
theorem heartbeat_gated_not_cancelled_witness :
    (step initState .tick).2 = [] ∧
    (step initState .sigterm).1.alive = false ∧
    step { initState with alive := false } Event.tick =
      ({ initState with alive := false }, []) :=
  ⟨(heartbeat_gated_not_cancelled initState).1 rfl,
   (heartbeat_gated_not_cancelled initState).2.2.1,
   (heartbeat_gated_not_cancelled { initState with alive := false }).2.2.2
     Event.tick rfl⟩

/-- C9 counterexample: after a session becomes active and the connection
closes normally (server side), the readline interface is still up and the
client is disconnected — yet a translated interrupt (Ctrl+C) produces
only a prompt refresh: no "not connected" notice is emitted, the
interrupt is silently dropped (it is not queued either). -/
theorem interrupt_dropped_silently_when_disconnected :
    (runTrace initState [Event.opened, Event.inbound (some sessionActiveFrame),
      Event.closed 1000]).rl = true ∧
    (runTrace initState [Event.opened, Event.inbound (some sessionActiveFrame),
      Event.closed 1000]).connected = false ∧
    (runTrace initState [Event.opened, Event.inbound (some sessionActiveFrame),
      Event.closed 1000]).alive = true ∧
    (step (runTrace initState [Event.opened, Event.inbound (some sessionActiveFrame),
      Event.closed 1000]) Event.sigint).2 = [Effect.promptRefresh] := by
  refine ⟨by decide, by decide, by decide, by decide⟩

/-- C9 amended: while the connection is not ready, a typed line other than
the locally intercepted `exit`/`quit` always yields the explicit
"Not connected to server" notice, is never queued and leaves the state
unchanged; a translated interrupt yields the notice only when
`connected` still holds with the socket not open — when fully
disconnected it is silently dropped (prompt refresh only, no notice). -/
theorem not_connected_notice (st : ClientState) (input : String)
    (ha : st.alive = true) (hr : st.rl = true)
    (hnr : st.connected = false ∨ st.wsReady = false)
    (hx : trimInput input ≠ "exit") (hq : trimInput input ≠ "quit") :
    (step st (.line input)).2 = [Effect.logError "Not connected to server"] ∧
    (step st (.line input)).1 = st ∧
    (st.connected = true →
      (step st .sigint).2 =
        [Effect.logError "Not connected to server", Effect.promptRefresh]) ∧
    (st.connected = false → (step st .sigint).2 = [Effect.promptRefresh]) := by
  have hgate : (st.connected && st.wsReady) = false := by
    rcases hnr with h | h <;> simp [h]
  refine ⟨?_, ?_, fun hcon => ?_, fun hcon => ?_⟩
  · simp [step, ha, hr, hx, hq, hgate]
  · simp [step, ha, hr, hx, hq, hgate]
  · have hw : st.wsReady = false := by
      rcases hnr with h | h
      · rw [h] at hcon; exact absurd hcon (by simp)
      · exact h
    simp [step, ha, hr, hcon, sendCommandStep, hw]
  · simp [step, ha, hr, hcon]

/-- Witness for `not_connected_notice`: typed line and interrupt on a
disconnected client whose terminal is up. -/
theorem not_connected_notice_witness :
    (step { initState with rl := true } (Event.line "ls")).2 =
      [Effect.logError "Not connected to server"] ∧
    (step { initState with rl := true } Event.sigint).2 = [Effect.promptRefresh] :=
  ⟨(not_connected_notice { initState with rl := true } "ls" rfl rfl
      (Or.inl rfl) (by decide) (by decide)).1,
   (not_connected_notice { initState with rl := true } "ls" rfl rfl
      (Or.inl rfl) (by decide) (by decide)).2.2.2 rfl⟩

/-- C10: `lastScreen` is never reset by an Open transition, a closure
(normal, terminal or reconnect-scheduling), or the cleanup path; and when
the first `output` snapshot on a freshly (re)opened connection equals the
snapshot rendered before the disconnect, nothing is repainted. -/
theorem renderstate_survives_reconnect (st : ClientState) (code : Nat) :
    (step st .opened).1.lastScreen = st.lastScreen ∧
    (step st (.closed code)).1.lastScreen = st.lastScreen ∧
    (step st .sigterm).1.lastScreen = st.lastScreen ∧
    (step (step st .opened).1
      (.inbound (some (outputFrame st.lastScreen)))).1.lastScreen = st.lastScreen ∧
    paintCount (step (step st .opened).1
      (.inbound (some (outputFrame st.lastScreen)))).2 = 0 := by
  by_cases ha : st.alive = true
  · have hopen : (step st .opened).1 =
        { st with connected := true, wsReady := true, reconnectAttempts := 0,
                  sessionActive := false } := by
      simp [step, ha]
    have ha1 : (step st .opened).1.alive = true := by rw [hopen]; exact ha
    have hc1 : (step st .opened).1.connected = true := by rw [hopen]
    have hl1 : (step st .opened).1.lastScreen = st.lastScreen := by rw [hopen]
    have hso := step_output (step st .opened).1 st.lastScreen ha1 hc1
    refine ⟨hl1, ?_, ?_, ?_, ?_⟩
    · simp only [step, ha, if_true]
      unfold onClose handleReconnectStep cleanup
      dsimp only
      split
      · rfl
      · split
        · split
          · rfl
          · rfl
        · rfl
    · simp [step, ha, cleanup]
    · rw [hso]
      dsimp only
      rw [hl1, render_self]
    · rw [hso]
      dsimp only
      rw [hl1, render_self]
      split <;> rfl
  · have ha' : st.alive = false := by simpa using ha
    have hnoop : ∀ e, step st e = (st, []) := fun e => by simp [step, ha']
    simp [hnoop, paintCount]

/-- The schema-violating control frame
`{"type":"control","action":"session_ready","data":{"session_id":5,"status":"creating"}}`
(`session_id` is a number, not a string). -/
def sessionReadyBadFrame : Json :=
  .obj [("type", .str "control"), ("action", .str "session_ready"),
        ("data", .obj [("session_id", .num 5), ("status", .str "creating")])]

/-- C8 counterexample: a frame that violates the wire schema (numeric
`session_id`) is dispatched as if well-formed and DOES change the Session
state: `this.sessionId` goes from `null` to `5`. Malformed frames are not
all state-preserving. -/
theorem malformed_frame_mutates_session_state :
    isValidMessage sessionReadyBadFrame = false ∧
    (onMessage initState (some sessionReadyBadFrame)).1.sessionId =
      JsVal.val (Json.num 5) ∧
    initState.sessionId = JsVal.val Json.null ∧
    JsVal.val (Json.num 5) ≠ JsVal.val Json.null := by
  refine ⟨rfl, rfl, rfl, by simp⟩

/-- C8 amended: processing any inbound frame raises no unhandled error and
emits only log lines and renderer writes — never a socket close, a
process exit or a transport send — so a corrupt frame cannot close the
connection; an unparsable frame (`JSON.parse` failure) leaves the state
unchanged and only logs; and every frame whose handling throws a (caught)
error leaves the state unchanged. A schema-violating frame whose handling
does NOT throw may still be dispatched by its `type` tag and update
session state (see the counterexample). -/
theorem malformed_frames_contained (st : ClientState) (frame : Option Json) :
    (∀ e ∈ (onMessage st frame).2, rendererOrLog e = true) ∧
    (frame = none → (onMessage st frame).1 = st ∧
      (onMessage st frame).2 = [Effect.logError "Error parsing message:"]) ∧
    (∀ j, frame = some j → (handleMessage st j).threw = true →
      (onMessage st frame).1 = st) := by
  refine ⟨?_, fun hf => ?_, fun j hf hthrew => ?_⟩
  · cases frame with
    | none =>
      intro e he
      simp only [onMessage, List.mem_singleton] at he
      rw [he]
      rfl
    | some j =>
      intro e he
      have hb := handleMessage_all_benign st j
      rw [List.all_eq_true] at hb
      unfold onMessage at he
      dsimp only at he
      split at he
      · rw [List.mem_append] at he
        rcases he with he | he
        · exact hb e he
        · rw [List.mem_singleton] at he
          rw [he]
          rfl
      · exact hb e he
  · subst hf
    exact ⟨rfl, rfl⟩
  · subst hf
    unfold onMessage
    dsimp only
    rcases handleMessage_threw st j with hno | hstate
    · rw [hno] at hthrew
      exact absurd hthrew (by simp)
    · split
      · exact hstate
      · exact hstate

/-- Witness for `malformed_frames_contained`: an unparsable frame and a
throwing frame (`output` with no `data`) leave the initial state
unchanged. -/
theorem malformed_frames_contained_witness :
    ((onMessage initState none).1 = initState ∧
      (onMessage initState none).2 = [Effect.logError "Error parsing message:"]) ∧
    (onMessage initState (some (Json.obj [("type", Json.str "output")]))).1 =
      initState :=
  ⟨(malformed_frames_contained initState none).2.1 rfl,
   (malformed_frames_contained initState
      (some (Json.obj [("type", Json.str "output")]))).2.2
     (Json.obj [("type", Json.str "output")]) rfl (by decide)⟩

/-- Witness for `close_code_reconnect_policy` at the initial state and the
abnormal-closure code 1006. -/
theorem close_code_reconnect_policy_witness :
    (schedulesReconnect (onClose initState 1000).2 = false ∧
      exitsProc (onClose initState 1000).2 = false ∧
      (onClose initState 1000).1.reconnectAttempts = initState.reconnectAttempts) ∧
    (schedulesReconnect (onClose initState 4001).2 = false ∧
      exitsProc (onClose initState 4001).2 = false ∧
      (onClose initState 4001).1.reconnectAttempts = initState.reconnectAttempts) ∧
    (schedulesReconnect (onClose initState 4003).2 = false ∧
      exitsProc (onClose initState 4003).2 = false ∧
      (onClose initState 4003).1.reconnectAttempts = initState.reconnectAttempts) ∧
    (initState.shouldReconnect = true → (1006 : Nat) ≠ 1000 → (1006 : Nat) ≠ 4001 →
      (1006 : Nat) ≠ 4003 →
      schedulesReconnect (onClose initState 1006).2 = true ∨
        exitsProc (onClose initState 1006).2 = true) :=
  close_code_reconnect_policy initState 1006

end ShellClient

